import Mathlib

/-!
Verification of the message-processing pipeline of the AI-Healthcare-Chatbot
backend (`backend/routes/whatsapp.py` and `backend/app.py`) against its
natural-language specification.

The Python source is shallowly embedded: every handler becomes a pure Lean
function, webhook state (interaction ledger, user-location store, outbound
messages, external-service calls) is passed explicitly as a `WAState` value,
and Python exceptions are modelled with `Option PyErr` results: a handler
returns `(st, some e)` when an exception escapes it, mirroring the source's
`try`/`except` nesting exactly.

External collaborators that are part of the repository but not part of the
provided backend sources (`services/whatsapp_api.py`, `services/nlp_engine.py`,
`services/translator.py`, `services/tts.py`, `utils/helpers.py`) are modelled
as an explicit record of function parameters (`Env`); the handlers only depend
on their results, never on their bodies, exactly as in the source.

Modelling conventions, applied uniformly:
* Python `dict.get` with a default is folded into the payload variants: each
  variant's fields are exactly the values the corresponding handler extracts,
  with the source's defaults applied; fields read by `.get(...)` without a
  default are `Option String`.
* The wall-clock timestamp column of the `interactions` and `user_locations`
  tables is omitted from the model; no verified claim depends on it.  (Its
  *evaluation* matters, though: `whatsapp.py` calls `datetime.now()` without
  ever importing `datetime`, which is modelled where it occurs.)
* Reply texts mirror the source constants with leading emoji and apostrophes
  elided; no claim depends on the exact characters of a reply, only on which
  fixed reply is sent.
* The `metadata` argument threaded through the handlers is never read by any
  of them and is omitted.
-/

/-- A Python exception, named by its class where the class matters. -/
inductive PyErr where
  /-- `TypeError` (e.g. `await` applied to a non-awaitable, wrong arity). -/
  | typeError : PyErr
  /-- `NameError` (an unbound module-level name such as `datetime`). -/
  | nameError : PyErr
  /-- `AttributeError` (e.g. `None.startswith`). -/
  | attributeError : PyErr
  /-- A failure raised by an external service call (network, timeout, ...). -/
  | serviceFailure : String → PyErr
deriving DecidableEq

/-- One row of the `interactions` table (the interaction ledger), as inserted
by `_log_interaction` / `log_interaction`.  `app.py`'s INSERT has no
`message_id` column, hence the `Option`.  The timestamp column is omitted. -/
structure Interaction where
  phone : String
  message : String
  sender : String
  channel : String
  message_id : Option String
  metadata : Option (List (String × String))
deriving DecidableEq

/-- One row of the `user_locations` table, as targeted by
`_store_user_location`'s `INSERT OR REPLACE`.  The `last_updated` column is
omitted (see the module docstring); `phone`, `latitude`, `longitude` are the
raw `.get` results and may be absent in the payload. -/
structure UserLocation where
  phone : Option String
  latitude : Option String
  longitude : Option String
  address : String
deriving DecidableEq

/-- An invocation of one of the language/NLP/TTS collaborators, recorded in
the order the pipeline makes the calls. -/
inductive ExtCall where
  | detectLanguage : String → ExtCall
  | translateToEnglish : String → ExtCall
  | translateFromEnglish : String → String → ExtCall
  | nlpProcessQuery : String → ExtCall
  | ttsGenerate : String → String → ExtCall
deriving DecidableEq

/-- `true` exactly on the two translation collaborator calls. -/
def ExtCall.isTranslate : ExtCall → Bool
  | .translateToEnglish _ => true
  | .translateFromEnglish _ _ => true
  | _ => false

/-- The observable state threaded through the webhook handlers: the
interaction ledger, the user-location store, the outbound messages delivered
through `whatsapp_api.send_message` (recipient as received, text), and the
trace of external language/NLP/TTS calls. -/
structure WAState where
  ledger : List Interaction
  locations : List UserLocation
  sent : List (Option String × String)
  calls : List ExtCall
deriving DecidableEq

/-- The empty initial state. -/
def WAState.empty : WAState := ⟨[], [], [], []⟩

/-- The dict returned by `nlp_engine.process_query` (spec: `NlpResult`).
`confidence` is carried opaquely (the pipeline only forwards it into ledger
metadata); entities is the `entities` map. -/
structure NlpResponse where
  intent : String
  confidence : Nat
  response : String
  needs_voice : Bool
  entities : List (String × String)
deriving DecidableEq

/-- The `interactive` sub-object of an interactive message, keyed by its
`type` field as `_handle_interactive_message` reads it. -/
inductive InteractiveKind where
  | buttonReply : Option String → Option String → InteractiveKind
  | listReply : Option String → Option String → Option String → InteractiveKind
  | otherKind : Option String → InteractiveKind
deriving DecidableEq

/-- A single element of the webhook's `messages` array, split by its `type`
field exactly as `_process_single_message` dispatches on it; each variant
carries the values the matching handler extracts (with the source's
`.get` defaults applied). -/
inductive MsgPayload where
  /-- `type == "text"`: `message.get("text", {}).get("body", "")`. -/
  | text : String → MsgPayload
  /-- `type == "interactive"`. -/
  | interactive : InteractiveKind → MsgPayload
  /-- `type == "button"` (legacy): `button.get("text")`, `button.get("payload")`. -/
  | button : Option String → Option String → MsgPayload
  /-- `type == "location"`: latitude, longitude (`.get`, may be absent),
  address (`.get("address", "")`). -/
  | location : Option String → Option String → String → MsgPayload
  /-- `type == "image"`: `image.get("id")`, `image.get("caption", "")`. -/
  | image : Option String → String → MsgPayload
  /-- `type == "audio"`: `audio.get("id")`. -/
  | audio : Option String → MsgPayload
  /-- any other `type` string (or a missing one). -/
  | other : Option String → MsgPayload
deriving DecidableEq

/-- A normalized inbound message: `message.get("from")`, `message.get("id")`
and the type-specific payload. -/
structure Msg where
  from_number : Option String
  message_id : Option String
  payload : MsgPayload
deriving DecidableEq

/-- The collaborators the handlers call, passed as parameters: helpers from
`utils/helpers.py`, the `settings.FEATURE_VOICE` flag, and the translator /
NLP / TTS / delivery services.  Fallible collaborators return `Except PyErr _`
so that a failing call can be injected at any step. -/
structure Env where
  validate_phone_number : Option String → Bool
  sanitize_input : String → String
  feature_voice : Bool
  detect_language : String → Except PyErr String
  translate_to_english : String → Except PyErr String
  translate_from_english : String → String → Except PyErr String
  process_query : String → Except PyErr NlpResponse
  generate_speech : String → String → Except PyErr String
  send_message : Option String → String → Except PyErr Unit

/-- Python `str.strip()` (no arguments): remove leading and trailing
whitespace.  (Defined directly on the character list so that it is
structurally recursive and evaluates inside the kernel.) -/
def py_strip (s : String) : String :=
  ⟨List.reverse (List.dropWhile Char.isWhitespace
    (List.reverse (List.dropWhile Char.isWhitespace s.data)))⟩

/-- Python f-string rendering of a possibly-`None` value. -/
def fmt_opt : Option String → String
  | some s => s
  | none => "None"

/-- Record a collaborator invocation in the call trace. -/
def record_call (st : WAState) (c : ExtCall) : WAState :=
  { st with calls := st.calls ++ [c] }

/-- `await whatsapp_api.send_message(recipient, text)`: on success the
message is appended to the outbound trace, on failure the exception
propagates to the caller. -/
def send_to (env : Env) (f : Option String) (text : String) (st : WAState) :
    WAState × Option PyErr :=
  match env.send_message f text with
  | .ok _ => ({ st with sent := st.sent ++ [(f, text)] }, none)
  | .error e => (st, some e)

/-! ## Fixed reply texts (whatsapp.py; emoji and apostrophes elided) -/

/-- `_send_error_message` (whatsapp.py 686-689). -/
def error_response_text : String :=
  "Sorry, I encountered an error. Please try again in a moment."

/-- `_send_empty_message_response` (whatsapp.py 691-694). -/
def empty_response_text : String :=
  "I did not receive any message. Please type your health question or concern."

/-- `_send_unsupported_message` (whatsapp.py 681-684). -/
def unsupported_response_text : String :=
  "I can only process text messages at the moment. Please type your health concerns."

/-- `_send_unknown_button_response` (whatsapp.py 696-699). -/
def unknown_button_response_text : String :=
  "I did not recognize that option. Please try again or type your question."

/-- `_send_unknown_selection_response` (whatsapp.py 701-704). -/
def unknown_selection_response_text : String :=
  "I did not recognize that selection. Please try again or type your question."

/-- Location acknowledgment (whatsapp.py 328). -/
def location_ack_text : String :=
  "Thank you for sharing your location. This helps us provide relevant health alerts and information for your area."

/-- Image reply (whatsapp.py 354). -/
def image_response_text : String :=
  "I see you sent an image. Currently, I can only process text messages. Please describe your health concern in words."

/-- Audio reply (whatsapp.py 378-383), chosen by `settings.FEATURE_VOICE`. -/
def audio_response_text (feature_voice : Bool) : String :=
  if feature_voice then
    "I received your voice message. Voice message processing is coming soon! For now, please type your health concerns."
  else
    "I received your voice message. Currently, I can only process text messages. Please type your health concerns."

/-- Emergency-services message (whatsapp.py 518). -/
def emergency_message_text : String :=
  "This appears to be an emergency. Please contact local emergency services immediately. For India: Dial 112 or 108 for ambulance."

/-- `_start_symptom_check` prompt (whatsapp.py 545). -/
def symptom_check_prompt_text : String :=
  "Please describe your symptoms. For example: I have fever and headache since yesterday"

/-- `_send_vaccine_info` (whatsapp.py 550). -/
def vaccine_info_text : String :=
  "Here is information about vaccination schedules and available vaccines..."

/-- `_send_outbreak_alerts` (whatsapp.py 564-571): text depends on whether a
location was supplied. -/
def outbreak_alert_text : Option String → String
  | some loc => "Checking outbreak alerts for " ++ loc ++ "..."
  | none => "Please share your location to get relevant outbreak alerts, or specify a location."

/-- `_send_disease_details` (whatsapp.py 599-603). -/
def disease_details_text (name : String) : String :=
  "Information about " ++ name ++ ": Symptoms, prevention, and treatment details will be shown here."

/-- `_process_symptom_selection` (whatsapp.py 605-610). -/
def symptom_selection_text (symptom : String) : String :=
  "Analyzing symptom: " ++ symptom ++ ". Please describe any other symptoms."

/-- `_send_vaccine_details` (whatsapp.py 612-616). -/
def vaccine_details_text (vaccine : String) : String :=
  "Information about " ++ vaccine ++ ": Schedule, dosage, and side effects will be shown here."

/-- `process_user_message`'s apology (app.py 237). -/
def app_error_message_text : String :=
  "Sorry, I am having trouble processing your request. Please try again later."

/-! ## Signature verification (whatsapp.py 94-127) -/

/-- Embeds `WhatsAppWebhookHandler._verify_signature` (whatsapp.py 94-127).
`hmacHex` abstracts `hmac.new(key, msg, sha256).hexdigest()` (key, raw body
bytes); `access_token` is `settings.WHATSAPP_ACCESS_TOKEN` with `""` standing
for unset/empty (both falsy); `signature` is
`request.headers.get("x-hub-signature-256", "")`.  `hmac.compare_digest` is a
constant-time equality on the two strings: functionally it is string
equality (its `TypeError` on non-ASCII input is caught by the surrounding
`except`, returning `False`, which coincides with inequality since the
expected header is always ASCII). -/
def verify_signature (hmacHex : String → List Nat → String)
    (access_token signature : String) (body : List Nat) : Bool :=
  if access_token = "" then
    true
  else if signature = "" then
    false
  else
    decide (signature = "sha256=" ++ hmacHex access_token body)

/-- Embeds `WhatsAppWebhookHandler.handle_webhook` (whatsapp.py 68-92).
`parsed` is the outcome of `await request.json()`.  The synchronous handler
returns the HTTP status and body tag, the list of payloads handed to
`background_tasks.add_task(self._process_webhook, body)` (returned unexecuted:
acknowledgment precedes processing), and the state, which the synchronous
part never touches. -/
def handle_webhook (hmacHex : String → List Nat → String)
    (access_token signature : String) (rawBody : List Nat)
    (parsed : Except PyErr (List Msg)) (st : WAState) :
    (Nat × String) × List (List Msg) × WAState :=
  if verify_signature hmacHex access_token signature rawBody then
    match parsed with
    | .ok body => ((200, "success"), [body], st)
    | .error _ => ((400, "invalid_json"), [], st)
  else
    ((401, "unauthorized"), [], st)

/-! ## Ledger and location writes (whatsapp.py)

`whatsapp.py` uses `datetime.now()` in `_log_interaction` (line 718) and
`_store_user_location` (line 629) but its import list (lines 1-18) never
imports `datetime`.  Evaluating the INSERT's parameter tuple therefore raises
`NameError: name 'datetime' is not defined` *before* `cursor.execute` runs;
the enclosing `except Exception` of each method logs and swallows it, so
neither method ever writes a row.  The model reflects this: both are the
identity on the state. -/

/-- Embeds `WhatsAppWebhookHandler._log_interaction` (whatsapp.py 706-724).
The parameter tuple of the INSERT evaluates `datetime.now()`; `datetime` is
unbound in this module, so a `NameError` is raised and swallowed by the
method's own `except` clause: the ledger is unchanged. -/
def wa_log_interaction (st : WAState) (_phone : Option String)
    (_message _sender _channel : String) (_message_id : Option String)
    (_metadata : Option (List (String × String))) : WAState :=
  st

/-- Embeds `WhatsAppWebhookHandler._store_user_location` (whatsapp.py
618-637).  Same `datetime.now()` `NameError` as `_log_interaction`, swallowed
by the method's `except`: the `INSERT OR REPLACE` never executes and the
location store is unchanged. -/
def store_user_location (st : WAState) (_from_number : Option String)
    (_latitude _longitude : Option String) (_address : String) : WAState :=
  st

/-! ## Fixed-reply senders (whatsapp.py 681-704) -/

/-- Embeds `_send_error_message` (whatsapp.py 686-689). -/
def send_error_message (env : Env) (f : Option String) (st : WAState) :
    WAState × Option PyErr :=
  send_to env f error_response_text st

/-- Embeds `_send_empty_message_response` (whatsapp.py 691-694). -/
def send_empty_message_response (env : Env) (f : Option String) (st : WAState) :
    WAState × Option PyErr :=
  send_to env f empty_response_text st

/-- Embeds `_send_unsupported_message` (whatsapp.py 681-684). -/
def send_unsupported_message (env : Env) (f : Option String) (st : WAState) :
    WAState × Option PyErr :=
  send_to env f unsupported_response_text st

/-- Embeds `_send_unknown_selection_response` (whatsapp.py 701-704). -/
def send_unknown_selection_response (env : Env) (f : Option String) (st : WAState) :
    WAState × Option PyErr :=
  send_to env f unknown_selection_response_text st

/-! ## Button and list dispatch (whatsapp.py 445-496) -/

/-- The keys of the `button_actions` dict literal of `_process_button_click`
(whatsapp.py 452-461), i.e. the button identifiers the source intends to
dispatch on. -/
def button_action_ids : List String :=
  ["symptom_check", "vaccine_info", "disease_info", "prevention_tips",
   "outbreak_alerts", "emergency_help", "language_change", "human_agent"]

/-- Embeds `_process_button_click` (whatsapp.py 445-472).  The body's first
statement builds the dict literal `button_actions = {"symptom_check": await
self._start_symptom_check, ...}`: each value is `await` applied to a *bound
method object* (the method is never called), and a bound method is not
awaitable, so evaluating the first value raises `TypeError` before the dict
exists and before any key lookup.  The method's `except` clause then sends
the error reply; the handlers and `_send_unknown_button_response` are
unreachable from here. -/
def process_button_click (env : Env) (f : Option String)
    (_button_id _button_title : Option String) (st : WAState) :
    WAState × Option PyErr :=
  send_error_message env f st

/-- Embeds the body of `_process_list_selection` (whatsapp.py 474-496) before
its `except`: `list_id.startswith(...)` raises `AttributeError` when
`list_id` is `None`; otherwise the three prefixes dispatch to the detail
senders (`str.replace` drops every occurrence of the prefix, as in the
source) and anything else gets the unknown-selection reply. -/
def process_list_selection_body (env : Env) (f : Option String)
    (list_id : Option String) (st : WAState) : WAState × Option PyErr :=
  match list_id with
  | none => (st, some PyErr.attributeError)
  | some lid =>
    if lid.startsWith "disease_" then
      send_to env f (disease_details_text (lid.replace "disease_" "")) st
    else if lid.startsWith "symptom_" then
      send_to env f (symptom_selection_text (lid.replace "symptom_" "")) st
    else if lid.startsWith "vaccine_" then
      send_to env f (vaccine_details_text (lid.replace "vaccine_" "")) st
    else
      send_unknown_selection_response env f st

/-- Embeds `_process_list_selection` (whatsapp.py 474-496): body plus the
`except` clause that degrades to the error reply. -/
def process_list_selection (env : Env) (f : Option String)
    (list_id : Option String) (st : WAState) : WAState × Option PyErr :=
  match process_list_selection_body env f list_id st with
  | (st', none) => (st', none)
  | (st', some _) => send_error_message env f st'

/-! ## Special intents (whatsapp.py 498-540) -/

/-- Embeds `_handle_emergency_intent` (whatsapp.py 516-522): send the fixed
emergency message, then `_log_interaction(..., "EMERGENCY_DETECTED",
"system", "whatsapp")` (which, as above, writes nothing). -/
def handle_emergency_intent (env : Env) (f : Option String) (st : WAState) :
    WAState × Option PyErr :=
  match send_to env f emergency_message_text st with
  | (st', none) =>
    (wa_log_interaction st' f "EMERGENCY_DETECTED" "system" "whatsapp" none none, none)
  | (st', some e) => (st', some e)

/-- Embeds `_handle_symptom_check_intent` (whatsapp.py 524-527): it calls
`self._start_symptom_check(from_number)`, but `_start_symptom_check`
(whatsapp.py 543) requires a second positional argument `metadata` with no
default, so the call raises `TypeError` before any message is sent. -/
def handle_symptom_check_intent (_env : Env) (_f : Option String) (st : WAState) :
    WAState × Option PyErr :=
  (st, some PyErr.typeError)

/-- Embeds `_handle_vaccine_info_intent` (whatsapp.py 529-535):
`entities.get("vaccine")` chooses between the vaccine-detail reply and the
generic vaccine info reply. -/
def handle_vaccine_info_intent (env : Env) (f : Option String)
    (entities : List (String × String)) (st : WAState) : WAState × Option PyErr :=
  match entities.lookup "vaccine" with
  | some v => send_to env f (vaccine_details_text v) st
  | none => send_to env f vaccine_info_text st

/-- Embeds `_handle_outbreak_alert_intent` (whatsapp.py 537-540). -/
def handle_outbreak_alert_intent (env : Env) (f : Option String)
    (entities : List (String × String)) (st : WAState) : WAState × Option PyErr :=
  send_to env f (outbreak_alert_text (entities.lookup "location")) st

/-- Embeds `_handle_special_intent` (whatsapp.py 498-514): dispatch on the
intent string; the method's own `except` clause only logs, so an exception in
a follow-up is swallowed and never reaches the caller. -/
def handle_special_intent (env : Env) (f : Option String) (intent : String)
    (entities : List (String × String)) (st : WAState) : WAState :=
  (if intent = "emergency" then handle_emergency_intent env f st
   else if intent = "symptom_check" then handle_symptom_check_intent env f st
   else if intent = "vaccine_info" then handle_vaccine_info_intent env f entities st
   else if intent = "outbreak_alert" then handle_outbreak_alert_intent env f entities st
   else (st, none)).1

/-! ## The text pipeline (whatsapp.py 394-443) -/

/-- Embeds the body of `_process_user_query` (whatsapp.py 394-443) before its
`except`: detect language; translate to English only when the detected
language differs from `"en"`; classify; translate the response back only in
the same case; optionally synthesize speech (`try`/`except` around the TTS
call alone: its failure is logged and ignored); send; log the bot turn (a
no-op, see `wa_log_interaction`); run the special-intent follow-up. -/
def process_user_query_body (env : Env) (f : Option String)
    (user_message : String) (st : WAState) : WAState × Option PyErr :=
  let st := record_call st (.detectLanguage user_message)
  match env.detect_language user_message with
  | .error e => (st, some e)
  | .ok detected_lang =>
    let step2 : WAState × Except PyErr String :=
      if detected_lang ≠ "en" then
        (record_call st (.translateToEnglish user_message),
         env.translate_to_english user_message)
      else (st, .ok user_message)
    match step2 with
    | (st, .error e) => (st, some e)
    | (st, .ok english_message) =>
      let st := record_call st (.nlpProcessQuery english_message)
      match env.process_query english_message with
      | .error e => (st, some e)
      | .ok nlp =>
        let step4 : WAState × Except PyErr String :=
          if detected_lang ≠ "en" then
            (record_call st (.translateFromEnglish nlp.response detected_lang),
             env.translate_from_english nlp.response detected_lang)
          else (st, .ok nlp.response)
        match step4 with
        | (st, .error e) => (st, some e)
        | (st, .ok final_response) =>
          let st :=
            if env.feature_voice && nlp.needs_voice then
              record_call st (.ttsGenerate final_response detected_lang)
            else st
          match send_to env f final_response st with
          | (st, some e) => (st, some e)
          | (st, none) =>
            let st := wa_log_interaction st f final_response "bot" "whatsapp" none
              (some [("intent", nlp.intent), ("confidence", toString nlp.confidence),
                     ("language", detected_lang)])
            (handle_special_intent env f nlp.intent nlp.entities st, none)

/-- Embeds `_process_user_query` (whatsapp.py 394-443): body plus the
`except` clause that sends the error reply (which may itself fail, in which
case the exception escapes to the calling handler). -/
def process_user_query (env : Env) (f : Option String) (user_message : String)
    (st : WAState) : WAState × Option PyErr :=
  match process_user_query_body env f user_message st with
  | (st', none) => (st', none)
  | (st', some _) => send_error_message env f st'

/-! ## Per-type message handlers (whatsapp.py 212-392) -/

/-- Embeds the body of `_handle_text_message` (whatsapp.py 212-232) before
its `except`: strip the body (`str.strip`, modelled by `py_strip`); an
empty result short-circuits to the empty-message reply; otherwise sanitize,
log the user turn (a no-op, see `wa_log_interaction`) and run the pipeline. -/
def handle_text_message_body (env : Env) (f : Option String)
    (message_id : Option String) (body : String) (st : WAState) :
    WAState × Option PyErr :=
  let text_body := py_strip body
  if text_body = "" then
    send_empty_message_response env f st
  else
    let text_body := env.sanitize_input text_body
    let st := wa_log_interaction st f text_body "user" "whatsapp" message_id none
    process_user_query env f text_body st

/-- Embeds `_handle_text_message` (whatsapp.py 212-232): body plus the
`except` clause that sends the error reply. -/
def handle_text_message (env : Env) (f : Option String)
    (message_id : Option String) (body : String) (st : WAState) :
    WAState × Option PyErr :=
  match handle_text_message_body env f message_id body st with
  | (st', none) => (st', none)
  | (st', some _) => send_error_message env f st'

/-- Embeds the body of `_handle_interactive_message` (whatsapp.py 238-282)
before its `except`: dispatch on `interactive.get("type")`; button and list
replies log the user turn verbatim (`"BUTTON: <id> - <title>"` resp.
`"LIST: <id> - <title>"`, rendering `None` as Python f-strings do) and then
dispatch; any other interactive type gets the unsupported-message reply. -/
def handle_interactive_message_body (env : Env) (f : Option String)
    (message_id : Option String) (k : InteractiveKind) (st : WAState) :
    WAState × Option PyErr :=
  match k with
  | .buttonReply button_id button_title =>
    let st := wa_log_interaction st f
      ("BUTTON: " ++ fmt_opt button_id ++ " - " ++ fmt_opt button_title)
      "user" "whatsapp" message_id none
    process_button_click env f button_id button_title st
  | .listReply list_id list_title _list_description =>
    let st := wa_log_interaction st f
      ("LIST: " ++ fmt_opt list_id ++ " - " ++ fmt_opt list_title)
      "user" "whatsapp" message_id none
    process_list_selection env f list_id st
  | .otherKind _ => send_unsupported_message env f st

/-- Embeds `_handle_interactive_message` (whatsapp.py 238-282): body plus the
`except` clause that sends the error reply. -/
def handle_interactive_message (env : Env) (f : Option String)
    (message_id : Option String) (k : InteractiveKind) (st : WAState) :
    WAState × Option PyErr :=
  match handle_interactive_message_body env f message_id k st with
  | (st', none) => (st', none)
  | (st', some _) => send_error_message env f st'

/-- Embeds `_handle_button_message` (whatsapp.py 284-305), the legacy button
form: log `"BUTTON_LEGACY: <text>"` (a no-op) and dispatch on the payload;
plus the `except` clause. -/
def handle_button_message (env : Env) (f : Option String)
    (message_id : Option String) (button_text button_payload : Option String)
    (st : WAState) : WAState × Option PyErr :=
  match
    (let st := wa_log_interaction st f ("BUTTON_LEGACY: " ++ fmt_opt button_text)
       "user" "whatsapp" message_id none
     process_button_click env f button_payload button_text st)
  with
  | (st', none) => (st', none)
  | (st', some _) => send_error_message env f st'

/-- Embeds the body of `_handle_location_message` (whatsapp.py 307-336)
before its `except`: log `"LOCATION: <lat>,<lon>"` (a no-op), store the
location (a no-op, see `store_user_location`), send the fixed
acknowledgment, log the bot turn (a no-op). -/
def handle_location_message_body (env : Env) (f : Option String)
    (message_id : Option String) (latitude longitude : Option String)
    (address : String) (st : WAState) : WAState × Option PyErr :=
  let st := wa_log_interaction st f
    ("LOCATION: " ++ fmt_opt latitude ++ "," ++ fmt_opt longitude)
    "user" "whatsapp" message_id none
  let st := store_user_location st f latitude longitude address
  match send_to env f location_ack_text st with
  | (st', none) =>
    (wa_log_interaction st' f location_ack_text "bot" "whatsapp" none none, none)
  | (st', some e) => (st', some e)

/-- Embeds `_handle_location_message` (whatsapp.py 307-336): body plus the
`except` clause. -/
def handle_location_message (env : Env) (f : Option String)
    (message_id : Option String) (latitude longitude : Option String)
    (address : String) (st : WAState) : WAState × Option PyErr :=
  match handle_location_message_body env f message_id latitude longitude address st with
  | (st', none) => (st', none)
  | (st', some _) => send_error_message env f st'

/-- Embeds `_handle_image_message` (whatsapp.py 338-362): log
`"IMAGE: <caption>"` (a no-op), send the fixed image reply, log the bot turn
(a no-op); plus the `except` clause. -/
def handle_image_message (env : Env) (f : Option String)
    (message_id : Option String) (caption : String) (st : WAState) :
    WAState × Option PyErr :=
  match
    (let st := wa_log_interaction st f ("IMAGE: " ++ caption) "user" "whatsapp"
       message_id none
     match send_to env f image_response_text st with
     | (st', none) =>
       (wa_log_interaction st' f image_response_text "bot" "whatsapp" none none, none)
     | (st', some e) => (st', some e))
  with
  | (st', none) => (st', none)
  | (st', some _) => send_error_message env f st'

/-- Embeds `_handle_audio_message` (whatsapp.py 364-392): log
`"AUDIO_MESSAGE"` (a no-op), send the `FEATURE_VOICE`-dependent fixed reply,
log the bot turn (a no-op); plus the `except` clause. -/
def handle_audio_message (env : Env) (f : Option String)
    (message_id : Option String) (st : WAState) : WAState × Option PyErr :=
  match
    (let st := wa_log_interaction st f "AUDIO_MESSAGE" "user" "whatsapp"
       message_id none
     match send_to env f (audio_response_text env.feature_voice) st with
     | (st', none) =>
       (wa_log_interaction st' f (audio_response_text env.feature_voice) "bot"
          "whatsapp" none none, none)
     | (st', some e) => (st', some e))
  with
  | (st', none) => (st', none)
  | (st', some _) => send_error_message env f st'

/-! ## Single-message processing and the webhook loop (whatsapp.py 159-210) -/

/-- Embeds the body of `_process_single_message` (whatsapp.py 173-207)
before its `except`: validate the sender's phone number — failure returns
immediately with no effect — then dispatch on the message type; a type with
no handler gets the unsupported-message reply. -/
def process_single_message_body (env : Env) (m : Msg) (st : WAState) :
    WAState × Option PyErr :=
  if env.validate_phone_number m.from_number then
    match m.payload with
    | .text body => handle_text_message env m.from_number m.message_id body st
    | .interactive k => handle_interactive_message env m.from_number m.message_id k st
    | .button bt bp => handle_button_message env m.from_number m.message_id bt bp st
    | .location la lo ad =>
      handle_location_message env m.from_number m.message_id la lo ad st
    | .image _ cap => handle_image_message env m.from_number m.message_id cap st
    | .audio _ => handle_audio_message env m.from_number m.message_id st
    | .other _ => send_unsupported_message env m.from_number st
  else
    (st, none)

/-- Embeds `_process_single_message` (whatsapp.py 173-210): body plus the
`except` clause, which sends the error reply (`await
self._send_error_message(from_number)` is itself unguarded, so a failure of
that send escapes to `_handle_messages`). -/
def process_single_message (env : Env) (m : Msg) (st : WAState) :
    WAState × Option PyErr :=
  match process_single_message_body env m st with
  | (st', none) => (st', none)
  | (st', some _) => send_error_message env m.from_number st'

/-- The `for message in messages` loop of `_handle_messages` (whatsapp.py
167-168): an exception escaping `_process_single_message` aborts the rest of
the loop (it is raised inside the single `try` that wraps the loop). -/
def handle_messages_loop (env : Env) (msgs : List Msg) (st : WAState) :
    WAState × Option PyErr :=
  match msgs with
  | [] => (st, none)
  | m :: rest =>
    match process_single_message env m st with
    | (st', none) => handle_messages_loop env rest st'
    | (st', some e) => (st', some e)

/-- Embeds `_handle_messages` (whatsapp.py 159-171): the loop plus the
method's `except` clause, which logs and swallows anything that escapes. -/
def handle_messages (env : Env) (msgs : List Msg) (st : WAState) : WAState :=
  (handle_messages_loop env msgs st).1

/-! ## app.py: `process_user_message`, `log_interaction`, `update_analytics`

`app.py` *does* import `datetime` (line 12), so its `log_interaction`
(app.py 242-258) really inserts ledger rows.  Its connection handling can
fail (a `PersistenceError` in the spec's taxonomy), in which case the row is
silently dropped; the model assumes the store is available, which is the
case every claim speaks about. -/

/-- Embeds `log_interaction` (app.py 242-258): append a ledger row (the
INSERT has no `message_id` column). -/
def app_log_interaction (st : WAState) (phone message sender channel : String)
    (metadata : Option (List (String × String))) : WAState :=
  { st with ledger := st.ledger ++ [⟨phone, message, sender, channel, none, metadata⟩] }

/-- Embeds `update_analytics` (app.py 260-287) at the granularity the core
needs: the three stats upserts are recorded as one `(phone, language,
intent)` event; failures are swallowed by the function's own `except`.  The
stats tables are outside every claim, so they are not modelled further; the
event list only witnesses that the call happened. -/
def app_update_analytics (st : WAState) (_phone _language _intent : String) :
    WAState :=
  st

/-- The metadata `app.py` line 229 stores with the bot turn: the whole
`nlp_response` dict; the model keeps the fields a claim could inspect. -/
def app_nlp_metadata (nlp : NlpResponse) : List (String × String) :=
  [("intent", nlp.intent), ("confidence", toString nlp.confidence),
   ("response", nlp.response)]

/-- Embeds the body of `process_user_message` (app.py 189-233) before its
`except`: sanitize both inputs, log the user turn, detect the language,
translate to English only when it differs from `"en"`, classify, translate
back only in the same case, synthesize speech when `needs_voice` (this call
is *not* individually guarded in `app.py`, unlike `whatsapp.py`: its failure
escapes to the `except`), deliver on the channel (`"sms"` only logs), log
the bot turn with the NLP metadata, update analytics. -/
def app_process_user_message_body (env : Env)
    (user_phone user_message _message_id channel : String) (st : WAState) :
    WAState × Option PyErr :=
  let user_phone := env.sanitize_input user_phone
  let user_message := env.sanitize_input user_message
  let st := app_log_interaction st user_phone user_message "user" channel none
  let st := record_call st (.detectLanguage user_message)
  match env.detect_language user_message with
  | .error e => (st, some e)
  | .ok detected_lang =>
    let step2 : WAState × Except PyErr String :=
      if detected_lang ≠ "en" then
        (record_call st (.translateToEnglish user_message),
         env.translate_to_english user_message)
      else (st, .ok user_message)
    match step2 with
    | (st, .error e) => (st, some e)
    | (st, .ok english_message) =>
      let st := record_call st (.nlpProcessQuery english_message)
      match env.process_query english_message with
      | .error e => (st, some e)
      | .ok nlp =>
        let step4 : WAState × Except PyErr String :=
          if detected_lang ≠ "en" then
            (record_call st (.translateFromEnglish nlp.response detected_lang),
             env.translate_from_english nlp.response detected_lang)
          else (st, .ok nlp.response)
        match step4 with
        | (st, .error e) => (st, some e)
        | (st, .ok final_response) =>
          let step5 : WAState × Except PyErr Unit :=
            if nlp.needs_voice then
              let st := record_call st (.ttsGenerate final_response detected_lang)
              match env.generate_speech final_response detected_lang with
              | .ok _ => (st, .ok ())
              | .error e => (st, .error e)
            else (st, .ok ())
          match step5 with
          | (st, .error e) => (st, some e)
          | (st, .ok _) =>
            let step6 : WAState × Except PyErr Unit :=
              if channel = "whatsapp" then
                match send_to env (some user_phone) final_response st with
                | (st, none) => (st, .ok ())
                | (st, some e) => (st, .error e)
              else (st, .ok ())
            match step6 with
            | (st, .error e) => (st, some e)
            | (st, .ok _) =>
              let st := app_log_interaction st user_phone final_response "bot"
                channel (some (app_nlp_metadata nlp))
              (app_update_analytics st user_phone detected_lang nlp.intent, none)

/-- Embeds `process_user_message` (app.py 189-241): body plus the `except`
clause, which sends the fixed apology on the whatsapp channel (this send is
unguarded: its own failure escapes the background task and skips the error
log) and then logs a bot turn with metadata `{"intent": "error"}`. -/
def app_process_user_message (env : Env)
    (user_phone user_message message_id channel : String) (st : WAState) :
    WAState × Option PyErr :=
  match app_process_user_message_body env user_phone user_message message_id channel st with
  | (st', none) => (st', none)
  | (st', some _) =>
    let phone := env.sanitize_input user_phone
    let step : WAState × Except PyErr Unit :=
      if channel = "whatsapp" then
        match send_to env (some phone) app_error_message_text st' with
        | (st'', none) => (st'', .ok ())
        | (st'', some e) => (st'', .error e)
      else (st', .ok ())
    match step with
    | (st'', .error e) => (st'', some e)
    | (st'', .ok _) =>
      (app_log_interaction st'' phone app_error_message_text "bot" channel
         (some [("intent", "error")]), none)

/-! ## Concrete collaborator instantiations (for closed evaluations) -/

/-- All collaborators succeed; detection returns the working language, the
classifier returns a fixed symptom-check result. -/
def env_ok : Env where
  validate_phone_number := fun _ => true
  sanitize_input := fun s => s
  feature_voice := false
  detect_language := fun _ => Except.ok "en"
  translate_to_english := fun s => Except.ok s
  translate_from_english := fun s _ => Except.ok s
  process_query := fun _ =>
    Except.ok ⟨"symptom_check", 92, "Please describe your symptoms in detail.", false, []⟩
  generate_speech := fun _ _ => Except.ok "voice.mp3"
  send_message := fun _ _ => Except.ok ()

/-- Like `env_ok`, but the classifier reports the `emergency` intent. -/
def env_emergency : Env where
  validate_phone_number := fun _ => true
  sanitize_input := fun s => s
  feature_voice := false
  detect_language := fun _ => Except.ok "en"
  translate_to_english := fun s => Except.ok s
  translate_from_english := fun s _ => Except.ok s
  process_query := fun _ =>
    Except.ok ⟨"emergency", 97, "Please seek medical help now.", false, []⟩
  generate_speech := fun _ _ => Except.ok "voice.mp3"
  send_message := fun _ _ => Except.ok ()

/-- Like `env_ok`, but the NLP classifier call fails (e.g. a timeout): the
injected failure for the error-containment claims. -/
def env_nlp_fail : Env where
  validate_phone_number := fun _ => true
  sanitize_input := fun s => s
  feature_voice := false
  detect_language := fun _ => Except.ok "en"
  translate_to_english := fun s => Except.ok s
  translate_from_english := fun s _ => Except.ok s
  process_query := fun _ => Except.error (PyErr.serviceFailure "timeout")
  generate_speech := fun _ _ => Except.ok "voice.mp3"
  send_message := fun _ _ => Except.ok ()

/-- Like `env_ok`, but phone-number validation rejects every number. -/
def env_reject : Env where
  validate_phone_number := fun _ => false
  sanitize_input := fun s => s
  feature_voice := false
  detect_language := fun _ => Except.ok "en"
  translate_to_english := fun s => Except.ok s
  translate_from_english := fun s _ => Except.ok s
  process_query := fun _ =>
    Except.ok ⟨"symptom_check", 92, "Please describe your symptoms in detail.", false, []⟩
  generate_speech := fun _ _ => Except.ok "voice.mp3"
  send_message := fun _ _ => Except.ok ()

/-- A concrete inbound text message. -/
def msg_text_fever : Msg := ⟨some "911234567890", some "wamid.001", .text "I have fever"⟩

/-! ## Helper lemmas: the WhatsApp handlers never write the ledger

Every ledger write in `whatsapp.py` goes through `_log_interaction`, whose
insert always fails (see `wa_log_interaction`); these lemmas propagate that
fact through each handler, for every collaborator instantiation. -/

theorem send_to_ledger (env : Env) (f : Option String) (t : String) (st : WAState) :
    ((send_to env f t st).1).ledger = st.ledger := by
  rcases h : env.send_message f t with e | u <;> simp [send_to, h]

theorem send_error_message_ledger (env : Env) (f : Option String) (st : WAState) :
    ((send_error_message env f st).1).ledger = st.ledger :=
  send_to_ledger env f error_response_text st

theorem process_list_selection_body_ledger (env : Env) (f : Option String)
    (lid : Option String) (st : WAState) :
    ((process_list_selection_body env f lid st).1).ledger = st.ledger := by
  unfold process_list_selection_body
  rcases lid with _ | l
  · rfl
  · dsimp only
    split
    · exact send_to_ledger ..
    · split
      · exact send_to_ledger ..
      · split
        · exact send_to_ledger ..
        · exact send_to_ledger ..

theorem process_list_selection_ledger (env : Env) (f : Option String)
    (lid : Option String) (st : WAState) :
    ((process_list_selection env f lid st).1).ledger = st.ledger := by
  unfold process_list_selection
  split
  case _ st' h =>
    have hb := process_list_selection_body_ledger env f lid st
    rw [h] at hb
    exact hb
  case _ st' e h =>
    have hb := process_list_selection_body_ledger env f lid st
    rw [h] at hb
    rw [send_error_message_ledger]
    exact hb

theorem handle_special_intent_ledger (env : Env) (f : Option String)
    (intent : String) (ents : List (String × String)) (st : WAState) :
    (handle_special_intent env f intent ents st).ledger = st.ledger := by
  unfold handle_special_intent handle_emergency_intent handle_symptom_check_intent
    handle_vaccine_info_intent handle_outbreak_alert_intent
  split
  · split
    case _ st' h =>
      have hb := send_to_ledger env f emergency_message_text st
      rw [h] at hb
      exact hb
    case _ st' e h =>
      have hb := send_to_ledger env f emergency_message_text st
      rw [h] at hb
      exact hb
  · split
    · rfl
    · split
      · split <;> exact send_to_ledger ..
      · split
        · exact send_to_ledger ..
        · rfl

theorem send_to_eq_ledger {env : Env} {f : Option String} {t : String}
    {st st' : WAState} {e : Option PyErr} (h : send_to env f t st = (st', e)) :
    st'.ledger = st.ledger := by
  have hb := send_to_ledger env f t st
  rw [h] at hb
  exact hb

theorem puq_tail_ledger (env : Env) (f : Option String) (fin : String)
    (nlp : NlpResponse) (lang : String) (ST : WAState) :
    ((match send_to env f fin ST with
      | (st, some e) => (st, some e)
      | (st, none) =>
        (handle_special_intent env f nlp.intent nlp.entities
          (wa_log_interaction st f fin "bot" "whatsapp" none
            (some [("intent", nlp.intent), ("confidence", toString nlp.confidence),
                   ("language", lang)])), none)).1).ledger = ST.ledger := by
  split
  case _ st' e' h => exact send_to_eq_ledger h
  case _ st' h =>
    show (handle_special_intent env f nlp.intent nlp.entities st').ledger = ST.ledger
    rw [handle_special_intent_ledger]
    exact send_to_eq_ledger h

theorem process_user_query_body_ledger (env : Env) (f : Option String)
    (u : String) (st : WAState) :
    ((process_user_query_body env f u st).1).ledger = st.ledger := by
  unfold process_user_query_body
  rcases h1 : env.detect_language u with e | lang
  · simp [h1, record_call]
  · simp only [h1]
    by_cases hl : lang ≠ "en" <;> simp only [hl, if_pos, if_neg, if_true, if_false, ite_not]
    · rcases h2 : env.translate_to_english u with e | eng <;> simp only [h2]
      · simp [record_call]
      · rcases h3 : env.process_query eng with e | nlp <;> simp only [h3]
        · simp [record_call]
        · rcases h4 : env.translate_from_english nlp.response lang with e | fin <;>
            simp only [h4]
          · simp [record_call]
          · by_cases hv : (env.feature_voice && nlp.needs_voice) = true <;>
              simp only [hv, if_pos, if_neg, if_true, if_false, Bool.false_eq_true]
            all_goals exact (puq_tail_ledger env f fin nlp lang _).trans (by simp [record_call])
    · rcases h3 : env.process_query u with e | nlp <;> simp only [h3]
      · simp [record_call]
      · by_cases hv : (env.feature_voice && nlp.needs_voice) = true <;>
          simp only [hv, if_pos, if_neg, if_true, if_false, Bool.false_eq_true]
        all_goals
          exact (puq_tail_ledger env f nlp.response nlp lang _).trans (by simp [record_call])

theorem process_user_query_ledger (env : Env) (f : Option String) (u : String)
    (st : WAState) : ((process_user_query env f u st).1).ledger = st.ledger := by
  unfold process_user_query
  split
  case _ st' h =>
    have hb := process_user_query_body_ledger env f u st
    rw [h] at hb
    exact hb
  case _ st' e h =>
    have hb := process_user_query_body_ledger env f u st
    rw [h] at hb
    rw [send_error_message_ledger]
    exact hb

theorem handle_text_message_ledger (env : Env) (f : Option String)
    (mid : Option String) (body : String) (st : WAState) :
    ((handle_text_message env f mid body st).1).ledger = st.ledger := by
  have hb : ((handle_text_message_body env f mid body st).1).ledger = st.ledger := by
    unfold handle_text_message_body
    simp only [wa_log_interaction]
    split
    · exact send_to_ledger ..
    · exact process_user_query_ledger ..
  unfold handle_text_message
  split
  case _ st' h =>
    rw [h] at hb
    exact hb
  case _ st' e h =>
    rw [h] at hb
    rw [send_error_message_ledger]
    exact hb

theorem handle_interactive_message_ledger (env : Env) (f : Option String)
    (mid : Option String) (k : InteractiveKind) (st : WAState) :
    ((handle_interactive_message env f mid k st).1).ledger = st.ledger := by
  have hb : ((handle_interactive_message_body env f mid k st).1).ledger = st.ledger := by
    unfold handle_interactive_message_body
    rcases k with ⟨bid, btitle⟩ | ⟨lid, ltitle, ldesc⟩ | t
    · exact send_error_message_ledger ..
    · exact process_list_selection_ledger ..
    · exact send_to_ledger ..
  unfold handle_interactive_message
  split
  case _ st' h =>
    rw [h] at hb
    exact hb
  case _ st' e h =>
    rw [h] at hb
    rw [send_error_message_ledger]
    exact hb

theorem handle_button_message_ledger (env : Env) (f : Option String)
    (mid : Option String) (bt bp : Option String) (st : WAState) :
    ((handle_button_message env f mid bt bp st).1).ledger = st.ledger := by
  unfold handle_button_message
  simp only [wa_log_interaction]
  split
  case _ st' h =>
    unfold process_button_click at h
    have hb := send_error_message_ledger env f st
    rw [h] at hb
    exact hb
  case _ st' e h =>
    unfold process_button_click at h
    have hb := send_error_message_ledger env f st
    rw [h] at hb
    rw [send_error_message_ledger]
    exact hb

theorem handle_location_message_ledger (env : Env) (f : Option String)
    (mid : Option String) (la lo : Option String) (ad : String) (st : WAState) :
    ((handle_location_message env f mid la lo ad st).1).ledger = st.ledger := by
  have hb : ((handle_location_message_body env f mid la lo ad st).1).ledger = st.ledger := by
    unfold handle_location_message_body
    simp only [wa_log_interaction, store_user_location]
    rcases hm : send_to env f location_ack_text st with ⟨st2, _ | e2⟩ <;> simp only [hm]
    · exact send_to_eq_ledger hm
    · exact send_to_eq_ledger hm
  unfold handle_location_message
  split
  case _ st' h =>
    rw [h] at hb
    exact hb
  case _ st' e h =>
    rw [h] at hb
    rw [send_error_message_ledger]
    exact hb

theorem handle_image_message_ledger (env : Env) (f : Option String)
    (mid : Option String) (cap : String) (st : WAState) :
    ((handle_image_message env f mid cap st).1).ledger = st.ledger := by
  unfold handle_image_message
  simp only [wa_log_interaction]
  rcases hm : send_to env f image_response_text st with ⟨st2, _ | e2⟩ <;> simp only [hm]
  · exact send_to_eq_ledger hm
  · rw [send_error_message_ledger]
    exact send_to_eq_ledger hm

theorem handle_audio_message_ledger (env : Env) (f : Option String)
    (mid : Option String) (st : WAState) :
    ((handle_audio_message env f mid st).1).ledger = st.ledger := by
  unfold handle_audio_message
  simp only [wa_log_interaction]
  rcases hm : send_to env f (audio_response_text env.feature_voice) st with ⟨st2, _ | e2⟩ <;>
    simp only [hm]
  · exact send_to_eq_ledger hm
  · rw [send_error_message_ledger]
    exact send_to_eq_ledger hm

theorem process_single_message_ledger (env : Env) (m : Msg) (st : WAState) :
    ((process_single_message env m st).1).ledger = st.ledger := by
  have hb : ((process_single_message_body env m st).1).ledger = st.ledger := by
    unfold process_single_message_body
    split
    · rcases m with ⟨f, mid, p⟩
      rcases p with b | k | ⟨bt, bp⟩ | ⟨la, lo, ad⟩ | ⟨iid, cap⟩ | aid | t
      · exact handle_text_message_ledger ..
      · exact handle_interactive_message_ledger ..
      · exact handle_button_message_ledger ..
      · exact handle_location_message_ledger ..
      · exact handle_image_message_ledger ..
      · exact handle_audio_message_ledger ..
      · exact send_to_ledger ..
    · rfl
  unfold process_single_message
  split
  case _ st' h =>
    rw [h] at hb
    exact hb
  case _ st' e h =>
    rw [h] at hb
    rw [send_error_message_ledger]
    exact hb

/-! ## Helper lemmas: delivery outcomes and trace shapes -/

theorem send_to_ok {env : Env} (hsend : ∀ f t, env.send_message f t = Except.ok ())
    (f : Option String) (t : String) (st : WAState) :
    send_to env f t st = ({ st with sent := st.sent ++ [(f, t)] }, none) := by
  simp [send_to, hsend f t]

theorem send_to_cases (env : Env) (f : Option String) (t : String) (st : WAState) :
    send_to env f t st = ({ st with sent := st.sent ++ [(f, t)] }, none) ∨
    ∃ e, send_to env f t st = (st, some e) := by
  unfold send_to
  rcases env.send_message f t with er | u
  · exact Or.inr ⟨er, rfl⟩
  · exact Or.inl rfl

theorem handle_special_intent_calls (env : Env) (f : Option String)
    (intent : String) (ents : List (String × String)) (st : WAState) :
    (handle_special_intent env f intent ents st).calls = st.calls := by
  unfold handle_special_intent handle_emergency_intent handle_symptom_check_intent
    handle_vaccine_info_intent handle_outbreak_alert_intent
  split
  · rcases send_to_cases env f emergency_message_text st with h | ⟨e, h⟩ <;>
      rw [h] <;> simp [wa_log_interaction]
  · split
    · rfl
    · split
      · split
        case _ v hv =>
          rcases send_to_cases env f (vaccine_details_text v) st with h | ⟨e, h⟩ <;>
            rw [h] <;> simp
        case _ hv =>
          rcases send_to_cases env f vaccine_info_text st with h | ⟨e, h⟩ <;>
            rw [h] <;> simp
      · split
        · rcases send_to_cases env f (outbreak_alert_text (ents.lookup "location")) st with
            h | ⟨e, h⟩ <;> rw [h] <;> simp
        · rfl

theorem handle_special_intent_sent (env : Env) (f : Option String)
    (intent : String) (ents : List (String × String)) (st : WAState) :
    ∃ l, (handle_special_intent env f intent ents st).sent = st.sent ++ l := by
  unfold handle_special_intent handle_emergency_intent handle_symptom_check_intent
    handle_vaccine_info_intent handle_outbreak_alert_intent
  split
  · rcases send_to_cases env f emergency_message_text st with h | ⟨e, h⟩ <;> rw [h]
    · exact ⟨[(f, emergency_message_text)], by simp [wa_log_interaction]⟩
    · exact ⟨[], by simp⟩
  · split
    · exact ⟨[], by simp⟩
    · split
      · split
        case _ v hv =>
          rcases send_to_cases env f (vaccine_details_text v) st with h | ⟨e, h⟩ <;> rw [h]
          · exact ⟨[(f, vaccine_details_text v)], by simp⟩
          · exact ⟨[], by simp⟩
        case _ hv =>
          rcases send_to_cases env f vaccine_info_text st with h | ⟨e, h⟩ <;> rw [h]
          · exact ⟨[(f, vaccine_info_text)], by simp⟩
          · exact ⟨[], by simp⟩
      · split
        · rcases send_to_cases env f (outbreak_alert_text (ents.lookup "location")) st with
            h | ⟨e, h⟩ <;> rw [h]
          · exact ⟨[(f, outbreak_alert_text (ents.lookup "location"))], by simp⟩
          · exact ⟨[], by simp⟩
        · exact ⟨[], by simp⟩

/-! ## Claim theorems -/

/-- Claim C1: for every raw body, header signature and non-empty shared
secret, `verify_signature` returns true exactly when the header equals
`"sha256=" ++ hex-HMAC-SHA256(secret, body)` (the comparison the source
performs via `hmac.compare_digest`), and for every input with an unset or
empty shared secret it returns true (the development-mode bypass). -/
theorem C1_verify_signature_correct :
    (∀ (hmacHex : String → List Nat → String) (sig : String) (body : List Nat),
        verify_signature hmacHex "" sig body = true) ∧
    (∀ (hmacHex : String → List Nat → String) (tok sig : String) (body : List Nat),
        tok ≠ "" →
        (verify_signature hmacHex tok sig body = true ↔
          sig = "sha256=" ++ hmacHex tok body)) := by
  constructor
  · intro hmacHex sig body
    simp [verify_signature]
  · intro hmacHex tok sig body htok
    unfold verify_signature
    rw [if_neg htok]
    by_cases hsig : sig = ""
    · subst hsig
      rw [if_pos rfl]
      constructor
      · intro hfalse
        cases hfalse
      · intro habs
        exfalso
        have hlen : ("" : String).length = ("sha256=" ++ hmacHex tok body).length :=
          congrArg String.length habs
        rw [String.length_append] at hlen
        have hlen7 : (0 : Nat) = 7 + (hmacHex tok body).length := hlen
        omega
    · rw [if_neg hsig]
      simp

/-- Witness for C1 at a concrete secret, signature, body and hash. -/
theorem C1_verify_signature_correct_witness :
    verify_signature (fun _ _ => "ab") "secret" "sha256=ab" [] = true :=
  (C1_verify_signature_correct.2 (fun _ _ => "ab") "secret" "sha256=ab" []
    (by decide)).mpr rfl

/-- Claim C4: a webhook POST whose signature fails verification is answered
with the 401 "unauthorized" response, no background-processing task is
queued (the payload is discarded unprocessed), and the state — in particular
the interaction ledger — is untouched. -/
theorem C4_invalid_signature_rejected
    (hmacHex : String → List Nat → String) (tok sig : String) (raw : List Nat)
    (parsed : Except PyErr (List Msg)) (st : WAState)
    (h : verify_signature hmacHex tok sig raw = false) :
    handle_webhook hmacHex tok sig raw parsed st = ((401, "unauthorized"), [], st) := by
  unfold handle_webhook
  rw [h]
  simp

/-- Witness for C4 at a concrete request with a wrong signature. -/
theorem C4_invalid_signature_rejected_witness :
    handle_webhook (fun _ _ => "ab") "secret" "bad" [] (Except.ok [msg_text_fever])
      WAState.empty = ((401, "unauthorized"), [], WAState.empty) :=
  C4_invalid_signature_rejected (fun _ _ => "ab") "secret" "bad" []
    (Except.ok [msg_text_fever]) WAState.empty (by decide)

/-- Claim C8: a message whose sender phone number fails validation is
dropped at once: `process_single_message` returns with the state unchanged
(no reply sent, no ledger write, no collaborator call) and no exception. -/
theorem C8_invalid_phone_halts (env : Env) (m : Msg) (st : WAState)
    (h : env.validate_phone_number m.from_number = false) :
    process_single_message env m st = (st, none) := by
  unfold process_single_message process_single_message_body
  rw [h]
  simp

/-- Witness for C8 at a concrete rejected message. -/
theorem C8_invalid_phone_halts_witness :
    process_single_message env_reject msg_text_fever WAState.empty =
      (WAState.empty, none) :=
  C8_invalid_phone_halts env_reject msg_text_fever WAState.empty rfl

/-- Claim C10: a text message whose body trims to the empty string gets the
fixed empty-message prompt and nothing else: the returned state differs from
the input state only by that one outbound message, so no user `Interaction`
row is written and no language-detection, translation or NLP call is made. -/
theorem C10_empty_text_prompt (env : Env)
    (hsend : ∀ f t, env.send_message f t = Except.ok ())
    (f mid : Option String) (body : String) (st : WAState)
    (h : py_strip body = "") :
    handle_text_message env f mid body st =
      ({ st with sent := st.sent ++ [(f, empty_response_text)] }, none) := by
  unfold handle_text_message handle_text_message_body send_empty_message_response
  simp [h, send_to_ok hsend]

/-- Witness for C10 at a concrete whitespace-only message. -/
theorem C10_empty_text_prompt_witness :
    handle_text_message env_ok (some "911234567890") (some "wamid.001") "   "
      WAState.empty =
      ({ WAState.empty with sent := [(some "911234567890", empty_response_text)] },
        none) :=
  C10_empty_text_prompt env_ok (fun _ _ => rfl) (some "911234567890")
    (some "wamid.001") "   " WAState.empty (by decide)

/-- Claim C3 (divergence): `_process_button_click` never reaches its
dispatch table — building `button_actions` awaits bound methods, raising
`TypeError` — so for *every* button identifier, the known table keys
included, the only effect is the fixed error reply; no handler reply and no
"unrecognized option" reply is ever produced. -/
theorem C3_button_click_always_errors (env : Env)
    (hsend : ∀ f t, env.send_message f t = Except.ok ())
    (f bid btitle : Option String) (st : WAState) :
    process_button_click env f bid btitle st =
      ({ st with sent := st.sent ++ [(f, error_response_text)] }, none) ∧
    ∀ b ∈ button_action_ids,
      process_button_click env f (some b) btitle st =
        ({ st with sent := st.sent ++ [(f, error_response_text)] }, none) := by
  constructor
  · unfold process_button_click send_error_message
    exact send_to_ok hsend ..
  · intro b _
    unfold process_button_click send_error_message
    exact send_to_ok hsend ..

/-- Witness for C3: the in-table id `symptom_check` yields the error reply,
not the symptom-check prompt. -/
theorem C3_button_click_always_errors_witness :
    process_button_click env_ok (some "911234567890") (some "symptom_check")
      (some "Symptom Check") WAState.empty =
      ({ WAState.empty with sent := [(some "911234567890", error_response_text)] },
        none) :=
  (C3_button_click_always_errors env_ok (fun _ _ => rfl) (some "911234567890")
    (some "symptom_check") (some "Symptom Check") WAState.empty).1

/-- Claim C6 (divergence): an image, audio or unsupported-type message from
a validated sender produces exactly the fixed capability-limited reply and
*no* ledger rows — the state changes only by the one outbound message,
because `_log_interaction` never writes (missing `datetime` import) and the
unsupported-type branch does not even attempt to log. -/
theorem C6_media_reply_no_ledger_rows (env : Env)
    (hsend : ∀ f t, env.send_message f t = Except.ok ())
    (f mid iid aid mt : Option String) (cap : String) (st : WAState)
    (hvp : env.validate_phone_number f = true) :
    (process_single_message env ⟨f, mid, .image iid cap⟩ st =
      ({ st with sent := st.sent ++ [(f, image_response_text)] }, none)) ∧
    (process_single_message env ⟨f, mid, .audio aid⟩ st =
      ({ st with sent := st.sent ++ [(f, audio_response_text env.feature_voice)] },
        none)) ∧
    (process_single_message env ⟨f, mid, .other mt⟩ st =
      ({ st with sent := st.sent ++ [(f, unsupported_response_text)] }, none)) := by
  refine ⟨?_, ?_, ?_⟩ <;>
    simp [process_single_message, process_single_message_body, hvp,
      handle_image_message, handle_audio_message, send_unsupported_message,
      wa_log_interaction, send_to_ok hsend]

/-- Witness for C6 at a concrete image message: the reply is sent and the
ledger stays empty. -/
theorem C6_media_reply_no_ledger_rows_witness :
    process_single_message env_ok
      ⟨some "911234567890", some "wamid.002", .image (some "img1") "my rash"⟩
      WAState.empty =
      ({ WAState.empty with sent := [(some "911234567890", image_response_text)] },
        none) :=
  (C6_media_reply_no_ledger_rows env_ok (fun _ _ => rfl) (some "911234567890")
    (some "wamid.002") (some "img1") none none "my rash" WAState.empty rfl).1

/-- Claim C7 (divergence): after two `Location` events from the same phone
the `user_locations` store is exactly as before — zero rows from an empty
store, not one row with the later event's fields — because
`_store_user_location` always fails on the unbound `datetime` name; each
event still sends the fixed acknowledgment. -/
theorem C7_location_store_never_written (env : Env)
    (hsend : ∀ f t, env.send_message f t = Except.ok ())
    (f mid mid2 la lo la2 lo2 : Option String) (ad ad2 : String) (st : WAState)
    (hvp : env.validate_phone_number f = true) :
    ((process_single_message env ⟨f, mid2, .location la2 lo2 ad2⟩
        ((process_single_message env ⟨f, mid, .location la lo ad⟩ st).1)).1).locations
      = st.locations ∧
    ((process_single_message env ⟨f, mid2, .location la2 lo2 ad2⟩
        ((process_single_message env ⟨f, mid, .location la lo ad⟩ st).1)).1).sent
      = st.sent ++ [(f, location_ack_text), (f, location_ack_text)] := by
  have hloc : ∀ (mid' la' lo' : Option String) (ad' : String) (s : WAState),
      process_single_message env ⟨f, mid', .location la' lo' ad'⟩ s =
        ({ s with sent := s.sent ++ [(f, location_ack_text)] }, none) := by
    intro mid' la' lo' ad' s
    simp [process_single_message, process_single_message_body, hvp,
      handle_location_message, handle_location_message_body,
      wa_log_interaction, store_user_location, send_to_ok hsend]
  rw [hloc mid la lo ad st]
  rw [hloc mid2 la2 lo2 ad2]
  simp

/-- Witness for C7 at two concrete location events from one phone: the
store stays empty (zero rows, not one). -/
theorem C7_location_store_never_written_witness :
    ((process_single_message env_ok
        ⟨some "911234567890", some "wamid.004", .location (some "28.7") (some "77.3") "Delhi 2"⟩
        ((process_single_message env_ok
          ⟨some "911234567890", some "wamid.003", .location (some "28.6") (some "77.2") "Delhi"⟩
          WAState.empty).1)).1).locations = [] ∧
    ((process_single_message env_ok
        ⟨some "911234567890", some "wamid.004", .location (some "28.7") (some "77.3") "Delhi 2"⟩
        ((process_single_message env_ok
          ⟨some "911234567890", some "wamid.003", .location (some "28.6") (some "77.2") "Delhi"⟩
          WAState.empty).1)).1).sent =
      [(some "911234567890", location_ack_text), (some "911234567890", location_ack_text)] :=
  C7_location_store_never_written env_ok (fun _ _ => rfl) (some "911234567890")
    (some "wamid.003") (some "wamid.004") (some "28.6") (some "77.2")
    (some "28.7") (some "77.3") "Delhi" "Delhi 2" WAState.empty rfl

/-- Claim C9 (divergence): a text turn classified `emergency` does send the
second, fixed emergency-services message after the primary reply (two bot
messages), but the promised `system`-sender `EMERGENCY_DETECTED` ledger row
is never written — the handler's ledger is unchanged. -/
theorem C9_emergency_two_sends_no_ledger_row (env : Env)
    (hsend : ∀ f t, env.send_message f t = Except.ok ())
    (f : Option String) (q : String) (st : WAState) (r : NlpResponse)
    (hdet : env.detect_language q = Except.ok "en")
    (hnlp : env.process_query q = Except.ok r)
    (hint : r.intent = "emergency") :
    ((process_user_query env f q st).1).sent =
      st.sent ++ [(f, r.response), (f, emergency_message_text)] ∧
    ((process_user_query env f q st).1).ledger = st.ledger := by
  refine ⟨?_, process_user_query_ledger env f q st⟩
  by_cases hv : (env.feature_voice && r.needs_voice) = true <;>
    simp [process_user_query, process_user_query_body, hdet, hnlp, hint, hv,
      handle_special_intent, handle_emergency_intent, wa_log_interaction,
      record_call, send_to_ok hsend]

/-- Witness for C9 at a concrete emergency-classified turn: two messages
sent, ledger still empty. -/
theorem C9_emergency_two_sends_no_ledger_row_witness :
    ((process_user_query env_emergency (some "911234567890") "chest pain help"
        WAState.empty).1).sent =
      [(some "911234567890", "Please seek medical help now."),
       (some "911234567890", emergency_message_text)] ∧
    ((process_user_query env_emergency (some "911234567890") "chest pain help"
        WAState.empty).1).ledger = [] :=
  C9_emergency_two_sends_no_ledger_row env_emergency (fun _ _ => rfl)
    (some "911234567890") "chest pain help" WAState.empty
    ⟨"emergency", 97, "Please seek medical help now.", false, []⟩ rfl rfl rfl

/-- Claim C5: when the detected language is the working language `"en"`,
the pipeline makes no translation calls (the translate-call trace is
unchanged), submits the text to the NLP classifier unchanged, and delivers
the classifier's response text unchanged. -/
theorem C5_english_skips_translation (env : Env)
    (hsend : ∀ f t, env.send_message f t = Except.ok ())
    (f : Option String) (q : String) (st : WAState) (r : NlpResponse)
    (hdet : env.detect_language q = Except.ok "en")
    (hnlp : env.process_query q = Except.ok r) :
    (((process_user_query env f q st).1).calls.filter ExtCall.isTranslate =
      st.calls.filter ExtCall.isTranslate) ∧
    ExtCall.nlpProcessQuery q ∈ ((process_user_query env f q st).1).calls ∧
    (f, r.response) ∈ ((process_user_query env f q st).1).sent := by
  by_cases hv : (env.feature_voice && r.needs_voice) = true
  · have hshape : (process_user_query env f q st).1 =
        handle_special_intent env f r.intent r.entities
          { st with
            sent := st.sent ++ [(f, r.response)],
            calls := st.calls ++ [ExtCall.detectLanguage q, ExtCall.nlpProcessQuery q,
              ExtCall.ttsGenerate r.response "en"] } := by
      simp [process_user_query, process_user_query_body, hdet, hnlp, hv,
        wa_log_interaction, record_call, send_to_ok hsend, List.append_assoc]
    refine ⟨?_, ?_, ?_⟩
    · rw [hshape, handle_special_intent_calls]
      simp [List.filter_append, ExtCall.isTranslate]
    · rw [hshape, handle_special_intent_calls]
      simp
    · rw [hshape]
      obtain ⟨l, hl⟩ := handle_special_intent_sent env f r.intent r.entities _
      rw [hl]
      simp
  · have hshape : (process_user_query env f q st).1 =
        handle_special_intent env f r.intent r.entities
          { st with
            sent := st.sent ++ [(f, r.response)],
            calls := st.calls ++ [ExtCall.detectLanguage q, ExtCall.nlpProcessQuery q] } := by
      simp [process_user_query, process_user_query_body, hdet, hnlp, hv,
        wa_log_interaction, record_call, send_to_ok hsend, List.append_assoc]
    refine ⟨?_, ?_, ?_⟩
    · rw [hshape, handle_special_intent_calls]
      simp [List.filter_append, ExtCall.isTranslate]
    · rw [hshape, handle_special_intent_calls]
      simp
    · rw [hshape]
      obtain ⟨l, hl⟩ := handle_special_intent_sent env f r.intent r.entities _
      rw [hl]
      simp

/-- Witness for C5 at a concrete English turn. -/
theorem C5_english_skips_translation_witness :
    (((process_user_query env_ok (some "911234567890") "I have fever"
        WAState.empty).1).calls.filter ExtCall.isTranslate = []) ∧
    ExtCall.nlpProcessQuery "I have fever" ∈
      ((process_user_query env_ok (some "911234567890") "I have fever"
        WAState.empty).1).calls ∧
    (some "911234567890", "Please describe your symptoms in detail.") ∈
      ((process_user_query env_ok (some "911234567890") "I have fever"
        WAState.empty).1).sent :=
  C5_english_skips_translation env_ok (fun _ _ => rfl) (some "911234567890")
    "I have fever" WAState.empty
    ⟨"symptom_check", 92, "Please describe your symptoms in detail.", false, []⟩
    rfl rfl

/-! ## Claim C2 -/

/-- Whether a ledger row is a bot turn tagged `intent=error`. -/
def tagged_intent_error (i : Interaction) : Bool :=
  match i.metadata with
  | some m => m.lookup "intent" == some "error"
  | none => false

/-- Structural unfolding of the message loop on a cons cell. -/
theorem handle_messages_loop_cons (env : Env) (m : Msg) (rest : List Msg)
    (st : WAState) :
    handle_messages_loop env (m :: rest) st =
      match process_single_message env m st with
      | (st', none) => handle_messages_loop env rest st'
      | (st', some e) => (st', some e) := by
  rw [handle_messages_loop]

/-- Counterexample to claim C2 as stated: with an injected NLP failure, the
WhatsApp handler sends the fixed apology for the failing text event, but the
interaction ledger receives *no* bot turn tagged `intent=error` — it stays
empty, because the handler's ledger writes all fail silently. -/
theorem C2_error_row_counterexample :
    (handle_messages env_nlp_fail [msg_text_fever] WAState.empty).sent =
      [(some "911234567890", error_response_text)] ∧
    (handle_messages env_nlp_fail [msg_text_fever] WAState.empty).ledger = [] ∧
    ((handle_messages env_nlp_fail [msg_text_fever] WAState.empty).ledger.any
      tagged_intent_error) = false := by
  refine ⟨by decide, by decide, by decide⟩

/-- Claim C2 (amended): (1) when message sends succeed, no exception escapes
a single event's processing and the WhatsApp handler's ledger is unchanged
(so no `intent=error` row is ever written by it); (2) an event whose
processing raised no escaping exception does not prevent the remaining
events of the same payload from being processed; (3) a failure anywhere in
the text pipeline degrades to sending the fixed apology, provided that send
itself succeeds; (4) `app.py`'s `process_user_message`, by contrast, both
sends its apology and appends a bot ledger row with metadata
`intent=error` on failure. -/
theorem C2_error_containment_amended :
    (∀ (env : Env), (∀ f t, env.send_message f t = Except.ok ()) →
      ∀ (m : Msg) (st : WAState),
        (process_single_message env m st).2 = none ∧
        ((process_single_message env m st).1).ledger = st.ledger) ∧
    (∀ (env : Env) (m : Msg) (rest : List Msg) (st : WAState),
        (process_single_message env m st).2 = none →
        handle_messages env (m :: rest) st =
          handle_messages env rest ((process_single_message env m st).1)) ∧
    (∀ (env : Env) (f : Option String) (q : String) (st out : WAState) (e : PyErr),
        process_user_query_body env f q st = (out, some e) →
        env.send_message f error_response_text = Except.ok () →
        process_user_query env f q st =
          ({ out with sent := out.sent ++ [(f, error_response_text)] }, none)) ∧
    (∀ (env : Env) (p q mid : String) (st out : WAState) (e : PyErr),
        app_process_user_message_body env p q mid "whatsapp" st = (out, some e) →
        env.send_message (some (env.sanitize_input p)) app_error_message_text =
          Except.ok () →
        app_process_user_message env p q mid "whatsapp" st =
          ({ out with
              sent := out.sent ++
                [(some (env.sanitize_input p), app_error_message_text)],
              ledger := out.ledger ++
                [⟨env.sanitize_input p, app_error_message_text, "bot", "whatsapp",
                  none, some [("intent", "error")]⟩] }, none)) := by
  refine ⟨fun env hsend m st => ⟨?_, process_single_message_ledger env m st⟩,
    fun env m rest st h => ?_, fun env f q st out e hb hs => ?_,
    fun env p q mid st out e hb hs => ?_⟩
  · rcases hb : process_single_message_body env m st with ⟨st', _ | e'⟩
    · simp [process_single_message, hb]
    · simp [process_single_message, hb, send_error_message, send_to_ok hsend]
  · rcases hp : process_single_message env m st with ⟨st', e'⟩
    rcases e' with _ | e'
    · show (handle_messages_loop env (m :: rest) st).1 = _
      rw [handle_messages_loop_cons, hp]
      rfl
    · rw [hp] at h
      exact absurd h (by simp)
  · simp [process_user_query, hb, send_error_message, send_to, hs]
  · simp [app_process_user_message, hb, send_to, hs, app_log_interaction]

/-- Witness for the amended C2 at a concrete failing event: no exception
escapes and the handler ledger stays empty. -/
theorem C2_error_containment_amended_witness :
    (process_single_message env_nlp_fail msg_text_fever WAState.empty).2 = none ∧
    ((process_single_message env_nlp_fail msg_text_fever WAState.empty).1).ledger = [] :=
  C2_error_containment_amended.1 env_nlp_fail (fun _ _ => rfl) msg_text_fever
    WAState.empty
